import Mathlib

/-!
Shallow embedding of the route-registrar core: the registration coordinator
(registrar/registrar.go) and the routing-API adapter (routingapi/api.go).

Conventions of the embedding:
- Go durations (time.Duration) are modelled as nanosecond counts (Nat); all
  configured intervals are non-negative.
- Pointer-valued configuration fields that are validated non-nil before the
  coordinator starts (registration interval, internal/external port) are
  modelled by their values.
- uint16 casts are modelled as reduction modulo 65536.
- The external collaborators (UAA token issuer, routing-API HTTP client,
  message bus, health checker) are modelled as oracles: each call site reads
  the collaborator's answer from an environment record, and every outbound
  call is recorded in an explicit trace.
- The float64 TTL buffer multiplication float64(d) * 2.1 is modelled by the
  exact scaling d * 21 / 10; at every input magnitude relevant here the
  float computation truncates to the same whole-second value.
-/

namespace RouteRegistrar

/-- Health-check block of a route (config.HealthCheck): script path and
timeout in nanoseconds. -/
structure HealthCheck where
  scriptPath : String
  timeout : Nat
deriving Repr, DecidableEq

/-- A configured route (config.Route). `registrationInterval`, `port` and
`externalPort` are pointer-valued in the Go config but validated present
before the coordinator starts, so they are modelled by their values. -/
structure Route where
  name : String
  type : String
  host : String
  port : Nat
  externalPort : Nat
  uris : List String
  tags : List (String × String)
  routerGroup : String
  serverCertDomainSAN : String
  registrationInterval : Nat
  healthCheck : Option HealthCheck
deriving Repr, DecidableEq

/-! ## routingapi/api.go -/

/-- models.TcpRouteMapping restricted to the fields the adapter sets via
models.NewSniTcpRouteMapping. -/
structure TcpRouteMapping where
  routerGroupGuid : String
  externalPort : Nat
  sniHostname : Option String
  hostIP : String
  hostPort : Nat
  ttl : Nat
deriving Repr, DecidableEq

/-- models.NewSniTcpRouteMapping: packs the fields of a TCP route mapping. -/
def NewSniTcpRouteMapping (routerGroupGuid : String) (externalPort : Nat)
    (sniHostname : Option String) (hostIP : String) (hostPort : Nat)
    (ttl : Nat) : TcpRouteMapping :=
  ⟨routerGroupGuid, externalPort, sniHostname, hostIP, hostPort, ttl⟩

/-- calculateTTL (api.go lines 98-108). Durations are nanosecond counts; the
float64 buffer multiplication by TTL_BUFFER = 2.1 is modelled by the exact
scaling by 21/10, and int(d.Seconds()) by floor division by 10^9. -/
def calculateTTL (requestedTTL maxTTL : Nat) : Nat :=
  let ttl := requestedTTL * 21 / 10
  if ttl > maxTTL then
    maxTTL / 1000000000
  else if ttl / 1000000000 < 1 then
    1
  else
    ttl / 1000000000

/-- nilIfEmpty (api.go lines 110-115): a nil or empty string pointer becomes
absent. -/
def nilIfEmpty (str : Option String) : Option String :=
  match str with
  | none => none
  | some s => if s = "" then none else some s

/-- A router group as returned by apiClient.RouterGroupWithName; only the
Guid field is consumed by the adapter. -/
structure RouterGroup where
  guid : String
deriving Repr, DecidableEq

/-- One outbound call made by the RoutingAPI adapter to its collaborators
(UAA client and routing-API client). -/
inductive BackendCall where
  | fetchToken
  | setToken (token : String)
  | routerGroupWithName (name : String)
  | upsertTcpRouteMappings (mappings : List TcpRouteMapping)
  | deleteTcpRouteMappings (mappings : List TcpRouteMapping)
deriving Repr, DecidableEq

/-- Oracle for the collaborators' answers during one RegisterRoute or
UnregisterRoute call: the UAA token fetch result, the router-group
resolution result per name, and the upsert/delete results per mapping
list (`none` means the call succeeded). -/
structure CallEnv where
  tokenResult : Except String String
  routerGroupResult : String → Except String RouterGroup
  upsertResult : List TcpRouteMapping → Option String
  deleteResult : List TcpRouteMapping → Option String

/-- Mutable state of the RoutingAPI struct: the router-group GUID cache,
the token last installed on the API client, and the (immutable) configured
maximum TTL in nanoseconds. -/
structure RoutingAPIState where
  routerGroupGUID : List (String × String)
  clientToken : Option String
  routingAPIMaxTTL : Nat
deriving Repr, DecidableEq

/-- Go map lookup on the GUID cache modelled on an association list (entries
are only ever inserted for absent keys, so order is immaterial). -/
def lookupGUID (name : String) : List (String × String) → Option String
  | [] => none
  | (n, g) :: rest => if n = name then some g else lookupGUID name rest

/-- Result of one adapter operation: the Go return value, the state after
the operation, and the trace of outbound collaborator calls, in order. -/
structure ApiResult (α : Type) where
  result : Except String α
  state : RoutingAPIState
  calls : List BackendCall

/-- refreshToken (api.go lines 42-53): unconditionally fetch a fresh token
and install it on the API client; a fetch error is returned as-is. -/
def refreshToken (env : CallEnv) (s : RoutingAPIState) : ApiResult Unit :=
  match env.tokenResult with
  | .error e => ⟨.error e, s, [.fetchToken]⟩
  | .ok tok => ⟨.ok (), { s with clientToken := some tok }, [.fetchToken, .setToken tok]⟩

def quoteMark : String := String.singleton (Char.ofNat 39)

/-- The fmt.Errorf message built at api.go line 66. -/
def routerGroupNotFoundMsg (name : String) : String :=
  "Router group " ++ quoteMark ++ name ++ quoteMark ++ " not found"

/-- getRouterGroupGUID (api.go lines 55-75): return the cached GUID when
present; otherwise ask the backend, fail on error or empty GUID, and cache
a successful non-empty resolution. -/
def getRouterGroupGUID (env : CallEnv) (s : RoutingAPIState) (name : String) :
    ApiResult String :=
  match lookupGUID name s.routerGroupGUID with
  | some guid => ⟨.ok guid, s, []⟩
  | none =>
    match env.routerGroupResult name with
    | .error e => ⟨.error e, s, [.routerGroupWithName name]⟩
    | .ok routerGroup =>
      if routerGroup.guid = "" then
        ⟨.error (routerGroupNotFoundMsg name), s, [.routerGroupWithName name]⟩
      else
        ⟨.ok routerGroup.guid,
         { s with routerGroupGUID := (name, routerGroup.guid) :: s.routerGroupGUID },
         [.routerGroupWithName name]⟩

/-- makeTcpRouteMapping (api.go lines 77-92): resolve the router group and
build the single SNI TCP route mapping. -/
def makeTcpRouteMapping (env : CallEnv) (s : RoutingAPIState) (route : Route) :
    ApiResult TcpRouteMapping :=
  match getRouterGroupGUID env s route.routerGroup with
  | ⟨.error e, s1, c⟩ => ⟨.error e, s1, c⟩
  | ⟨.ok guid, s1, c⟩ =>
    ⟨.ok (NewSniTcpRouteMapping guid (route.externalPort % 65536)
        (nilIfEmpty (some route.serverCertDomainSAN)) route.host
        (route.port % 65536)
        (calculateTTL route.registrationInterval s.routingAPIMaxTTL)),
     s1, c⟩

/-- RegisterRoute (api.go lines 117-134): refresh token, build the mapping,
then upsert the singleton mapping list; the first failing step returns its
error and skips the rest. -/
def RegisterRoute (env : CallEnv) (s : RoutingAPIState) (route : Route) :
    ApiResult Unit :=
  match refreshToken env s with
  | ⟨.error e, s1, c1⟩ => ⟨.error e, s1, c1⟩
  | ⟨.ok _, s1, c1⟩ =>
    match makeTcpRouteMapping env s1 route with
    | ⟨.error e, s2, c2⟩ => ⟨.error e, s2, c1 ++ c2⟩
    | ⟨.ok m, s2, c2⟩ =>
      match env.upsertResult [m] with
      | some e => ⟨.error e, s2, c1 ++ c2 ++ [.upsertTcpRouteMappings [m]]⟩
      | none => ⟨.ok (), s2, c1 ++ c2 ++ [.upsertTcpRouteMappings [m]]⟩

/-- UnregisterRoute (api.go lines 136-150): like RegisterRoute but the final
backend call deletes the singleton mapping list. -/
def UnregisterRoute (env : CallEnv) (s : RoutingAPIState) (route : Route) :
    ApiResult Unit :=
  match refreshToken env s with
  | ⟨.error e, s1, c1⟩ => ⟨.error e, s1, c1⟩
  | ⟨.ok _, s1, c1⟩ =>
    match makeTcpRouteMapping env s1 route with
    | ⟨.error e, s2, c2⟩ => ⟨.error e, s2, c1 ++ c2⟩
    | ⟨.ok m, s2, c2⟩ =>
      match env.deleteResult [m] with
      | some e => ⟨.error e, s2, c1 ++ c2 ++ [.deleteTcpRouteMappings [m]]⟩
      | none => ⟨.ok (), s2, c1 ++ c2 ++ [.deleteTcpRouteMappings [m]]⟩

/-- One adapter operation in a run, with the oracle answers for that call. -/
inductive ApiOp where
  | reg (route : Route) (env : CallEnv)
  | unreg (route : Route) (env : CallEnv)

/-- Sequential execution of a list of adapter operations, threading the
RoutingAPI state and concatenating the backend-call traces. -/
def runOps (s : RoutingAPIState) : List ApiOp → RoutingAPIState × List BackendCall
  | [] => (s, [])
  | .reg route env :: rest =>
    let r := RegisterRoute env s route
    let tail := runOps r.state rest
    (tail.1, r.calls ++ tail.2)
  | .unreg route env :: rest =>
    let r := UnregisterRoute env s route
    let tail := runOps r.state rest
    (tail.1, r.calls ++ tail.2)

/-- Whether a backend call is a resolution (RouterGroupWithName) for the
given router-group name. -/
def isResolutionCallFor (name : String) : BackendCall → Bool
  | .routerGroupWithName n => n = name
  | _ => false

/-! ## registrar/registrar.go -/

/-- The configuration the coordinator reads: the NATS host, the route list,
and the process-lifetime private instance identifier generated at startup. -/
structure RegistrarConf where
  host : String
  routes : List Route
  privateInstanceId : String
deriving Repr, DecidableEq

/-- One backend action issued by the coordinator: a RoutingAPI call or a
message-bus publish with its topic, host, route and instance identifier. -/
inductive RegAction where
  | routingAPIRegister (route : Route)
  | routingAPIUnregister (route : Route)
  | sendMessage (topic : String) (host : String) (route : Route) (privateInstanceId : String)
deriving Repr, DecidableEq

/-- Oracle for the coordinator's collaborators: the error result (none =
success) of each RoutingAPI call and of each message-bus publish. -/
structure RegistrarEnv where
  routingAPIRegisterResult : Route → Option String
  routingAPIUnregisterResult : Route → Option String
  sendMessageResult : String → Route → Option String

/-- registerRoutes (registrar.go lines 188-204): dispatch on the route type,
to the RoutingAPI client for tcp and to the message bus on topic
router.register otherwise; returns the backend error and the action taken. -/
def registerRoutes (conf : RegistrarConf) (env : RegistrarEnv) (route : Route) :
    Option String × List RegAction :=
  if route.type = "tcp" then
    (env.routingAPIRegisterResult route, [.routingAPIRegister route])
  else
    (env.sendMessageResult "router.register" route,
     [.sendMessage "router.register" conf.host route conf.privateInstanceId])

/-- unregisterRoutes (registrar.go lines 206-222): dispatch on the route
type, to the RoutingAPI client for tcp and to the message bus on topic
router.unregister otherwise. -/
def unregisterRoutes (conf : RegistrarConf) (env : RegistrarEnv) (route : Route) :
    Option String × List RegAction :=
  if route.type = "tcp" then
    (env.routingAPIUnregisterResult route, [.routingAPIUnregister route])
  else
    (env.sendMessageResult "router.unregister" route,
     [.sendMessage "router.unregister" conf.host route conf.privateInstanceId])

/-- A classified health outcome delivered to the coordinator on one of the
four event channels. -/
inductive HealthEvent where
  | noHealthCheck
  | checkError
  | healthy
  | unhealthy
deriving Repr, DecidableEq

/-- The body of the coordinator's select loop for a health event
(registrar.go lines 109-136): no-check and healthy register the route,
check-error and unhealthy unregister it. -/
def handleEvent (conf : RegistrarConf) (env : RegistrarEnv) (route : Route) :
    HealthEvent → Option String × List RegAction
  | .noHealthCheck => registerRoutes conf env route
  | .checkError => unregisterRoutes conf env route
  | .healthy => registerRoutes conf env route
  | .unhealthy => unregisterRoutes conf env route

/-- One input the coordinator's select loop can wake on: a classified health
event from some route's scheduler, or the shutdown signal. -/
inductive RunInput where
  | event (route : Route) (ev : HealthEvent)
  | signal

/-- An observable step of the coordinator: a backend action, or the closing
of the i-th scheduler's stop channel. -/
inductive TraceItem where
  | action (a : RegAction)
  | stopScheduler (i : Nat)
deriving Repr, DecidableEq

/-- The shutdown unregister sweep (registrar.go lines 144-149): unregister
each route in configuration order, stopping at the first error. -/
def unregisterAll (conf : RegistrarConf) (env : RegistrarEnv) :
    List Route → Option String × List RegAction
  | [] => (none, [])
  | r :: rs =>
    match unregisterRoutes conf env r with
    | (some e, acts) => (some e, acts)
    | (none, acts) =>
      let tail := unregisterAll conf env rs
      (tail.1, acts ++ tail.2)

/-- The actions the sweep takes over a prefix on which every call succeeds. -/
def unregisterActions (conf : RegistrarConf) (env : RegistrarEnv) :
    List Route → List RegAction
  | [] => []
  | r :: rs => (unregisterRoutes conf env r).2 ++ unregisterActions conf env rs

/-- The coordinator's main loop (registrar.go lines 107-152) over a sequence
of select-loop inputs. The first component is none while the loop is still
running (inputs exhausted), some none when Run returned nil, and
some (some e) when Run returned the error e; the second component is the
trace of backend actions and scheduler stops. -/
def runLoop (conf : RegistrarConf) (env : RegistrarEnv) :
    List RunInput → Option (Option String) × List TraceItem
  | [] => (none, [])
  | .event route ev :: rest =>
    match handleEvent conf env route ev with
    | (some e, acts) => (some (some e), acts.map TraceItem.action)
    | (none, acts) =>
      let tail := runLoop conf env rest
      (tail.1, acts.map TraceItem.action ++ tail.2)
  | .signal :: _ =>
    let sweep := unregisterAll conf env conf.routes
    (some sweep.1,
     (List.range conf.routes.length).map TraceItem.stopScheduler
       ++ sweep.2.map TraceItem.action)

/-- Whether an action registers the given route (RoutingAPI register for tcp
routes, a publish on router.register otherwise). -/
def isRegisterActionFor (route : Route) : RegAction → Bool
  | .routingAPIRegister r => r = route
  | .routingAPIUnregister _ => false
  | .sendMessage topic _ r _ => topic = "router.register" && r = route

/-- Whether an action unregisters the given route. -/
def isUnregisterActionFor (route : Route) : RegAction → Bool
  | .routingAPIRegister _ => false
  | .routingAPIUnregister r => r = route
  | .sendMessage topic _ r _ => topic = "router.unregister" && r = route

/-! ## The per-route health scheduler (registrar.go lines 155-186) -/

/-- A classified event emitted by a scheduler on one of the four channels. -/
inductive SchedEvent where
  | noHealthCheckEvent
  | errEvent
  | healthyEvent
  | unhealthyEvent
deriving Repr, DecidableEq

/-- One select-loop input of a scheduler: a timer tick, carrying the answer
the HealthChecker would give if invoked, or the closing of the stop
channel. -/
inductive SchedInput where
  | tick (res : Except String Bool)
  | close

/-- The tick branch of periodicallyDetermineHealth (registrar.go lines
168-181): a route with no health check, or one whose script path is empty,
yields the no-check event without invoking the checker; otherwise the
checker's answer is classified. The Bool records whether the HealthChecker
was invoked. -/
def schedulerTick (route : Route) (res : Except String Bool) : SchedEvent × Bool :=
  match route.healthCheck with
  | none => (.noHealthCheckEvent, false)
  | some hc =>
    if hc.scriptPath = "" then (.noHealthCheckEvent, false)
    else
      match res with
      | .error _ => (.errEvent, true)
      | .ok true => (.healthyEvent, true)
      | .ok false => (.unhealthyEvent, true)

/-- periodicallyDetermineHealth as a trace function over its select-loop
inputs: each tick emits exactly one classified event; the first close makes
the scheduler return immediately, emitting nothing further. -/
def schedulerRun (route : Route) : List SchedInput → List SchedEvent
  | [] => []
  | .tick res :: rest => (schedulerTick route res).1 :: schedulerRun route rest
  | .close :: _ => []

/-! ## Spec-side definitions for refinement comparison -/

/-- The TTL computation as the spec words it: the buffered interval clamped
to the maximum TTL, truncated to whole seconds, and floored to a minimum of
1 second when it would round down to zero. Compared against calculateTTL. -/
def calculateTTLSpec (requestedTTL maxTTL : Nat) : Nat :=
  let ttlSeconds := min (requestedTTL * 21 / 10) maxTTL / 1000000000
  if ttlSeconds = 0 then 1 else ttlSeconds

/-! ## Concrete fixtures -/

/-- A TCP route with no health check (registration interval 10s). -/
def tcpRoute : Route :=
  { name := "tcp-route", type := "tcp", host := "10.0.0.1", port := 1234,
    externalPort := 5678, uris := [], tags := [], routerGroup := "default-tcp",
    serverCertDomainSAN := "", registrationInterval := 10000000000,
    healthCheck := none }

/-- An HTTP route with a health-check script (registration interval 1s). -/
def httpRoute : Route :=
  { name := "http-route", type := "http", host := "10.0.0.2", port := 12345,
    externalPort := 0, uris := ["uri-1", "uri-2"], tags := [("tag1", "val1")],
    routerGroup := "", serverCertDomainSAN := "", registrationInterval := 1000000000,
    healthCheck := some { scriptPath := "/bin/check", timeout := 1000000000 } }

/-- The health check with the empty script path. -/
def emptyCheck : HealthCheck := { scriptPath := "", timeout := 0 }

/-- An HTTP route whose health-check block is present but has an empty
script path. -/
def emptyCheckRoute : Route := { httpRoute with healthCheck := some emptyCheck }

/-- A coordinator configuration with one HTTP and one TCP route. -/
def exampleConf : RegistrarConf :=
  { host := "127.0.0.1", routes := [httpRoute, tcpRoute], privateInstanceId := "instance-1" }

/-- A registrar environment in which every backend call succeeds. -/
def okRegEnv : RegistrarEnv :=
  { routingAPIRegisterResult := fun _ => none,
    routingAPIUnregisterResult := fun _ => none,
    sendMessageResult := fun _ _ => none }

/-- A registrar environment in which every message-bus publish fails. -/
def natsFailEnv : RegistrarEnv :=
  { routingAPIRegisterResult := fun _ => none,
    routingAPIUnregisterResult := fun _ => none,
    sendMessageResult := fun _ _ => some "nats down" }

/-- A registrar environment in which every RoutingAPI unregister fails. -/
def failTcpEnv : RegistrarEnv :=
  { routingAPIRegisterResult := fun _ => none,
    routingAPIUnregisterResult := fun _ => some "api down",
    sendMessageResult := fun _ _ => none }

/-- The RoutingAPI state at process start: empty cache, no token, maximum
TTL 120s. -/
def emptyState : RoutingAPIState :=
  { routerGroupGUID := [], clientToken := none, routingAPIMaxTTL := 120000000000 }

/-- A RoutingAPI state whose cache already holds the default router group. -/
def cachedState : RoutingAPIState :=
  { routerGroupGUID := [("default-tcp", "guid-0")], clientToken := none,
    routingAPIMaxTTL := 120000000000 }

/-- An adapter environment in which the token fetch fails. -/
def tokFailEnv : CallEnv :=
  { tokenResult := .error "uaa down",
    routerGroupResult := fun _ => .ok ⟨"guid-1"⟩,
    upsertResult := fun _ => none, deleteResult := fun _ => none }

/-- An adapter environment in which router-group resolution errors. -/
def rgFailEnv : CallEnv :=
  { tokenResult := .ok "tok1",
    routerGroupResult := fun _ => .error "api down",
    upsertResult := fun _ => none, deleteResult := fun _ => none }

/-- An adapter environment in which router-group resolution yields the empty
identifier. -/
def notFoundEnv : CallEnv :=
  { tokenResult := .ok "tok3",
    routerGroupResult := fun _ => .ok ⟨""⟩,
    upsertResult := fun _ => none, deleteResult := fun _ => none }

/-- An adapter environment in which every call succeeds. -/
def rgOkEnv : CallEnv :=
  { tokenResult := .ok "tok2",
    routerGroupResult := fun _ => .ok ⟨"guid-1"⟩,
    upsertResult := fun _ => none, deleteResult := fun _ => none }

/-! ## Theorems -/

/-- C3 counterexample: at registration interval 0.1s (10^8 ns) with maximum
TTL 0.1s, the buffered interval 0.21s truncates to 0 whole seconds, so the
claim requires the result to be at least 1; calculateTTL takes the clamp
branch first and returns 0, disagreeing with the clamp-then-floor reading
of the spec as well. -/
theorem calculateTTL_minimum_floor_counterexample :
    calculateTTL 100000000 100000000 = 0 ∧
    100000000 * 21 / 10 / 1000000000 = 0 ∧
    calculateTTLSpec 100000000 100000000 = 1 := by
  refine ⟨by decide, by decide, by decide⟩

/-- C3 (amended): the TTL is the buffered interval (interval scaled by 2.1)
clamped to the maximum TTL in whole seconds, with the 1-second minimum
applied only on the unclamped branch: whenever the clamp is taken the
result is the maximum TTL truncated to whole seconds, even if that is 0.
When the maximum TTL is at least one second this coincides with the spec's
clamp-then-floor description, and the three quoted examples hold. -/
theorem calculateTTL_spec (requestedTTL maxTTL : Nat) :
    (1000000000 ≤ maxTTL →
      calculateTTL requestedTTL maxTTL = calculateTTLSpec requestedTTL maxTTL) ∧
    (maxTTL < requestedTTL * 21 / 10 →
      calculateTTL requestedTTL maxTTL = maxTTL / 1000000000) ∧
    calculateTTL 1000000000 120000000000 = 2 ∧
    calculateTTL 10000000000 5000000000 = 5 ∧
    calculateTTL 100000000 120000000000 = 1 := by
  refine ⟨?_, ?_, by decide, by decide, by decide⟩
  · intro hmax
    simp only [calculateTTL, calculateTTLSpec]
    rcases Nat.le_total (requestedTTL * 21 / 10) maxTTL with h | h
    · rw [Nat.min_eq_left h]
      split_ifs <;> omega
    · rw [Nat.min_eq_right h]
      split_ifs <;> omega
  · intro hclamp
    simp only [calculateTTL]
    rw [if_pos hclamp]

/-- C3 witness: the amended characterization instantiated at interval 1s
with maximum TTL 5s (agreement with the spec-side function) and at interval
1s with maximum TTL 0.5s (the clamp branch). -/
theorem calculateTTL_spec_witness :
    calculateTTL 1000000000 5000000000 = calculateTTLSpec 1000000000 5000000000 ∧
    calculateTTL 1000000000 500000000 = 500000000 / 1000000000 :=
  ⟨(calculateTTL_spec 1000000000 5000000000).1 (by decide),
   (calculateTTL_spec 1000000000 500000000).2.1 (by decide)⟩

/-- C5: the coordinator's register and unregister actions dispatch on the
route type: tcp routes go to the RoutingAPI client, every other type is
published as exactly one message-bus message on router.register or
router.unregister carrying the configured host and the private instance
identifier. -/
theorem dispatch_by_route_type (conf : RegistrarConf) (env : RegistrarEnv) (route : Route) :
    (route.type = "tcp" →
      registerRoutes conf env route
        = (env.routingAPIRegisterResult route, [.routingAPIRegister route]) ∧
      unregisterRoutes conf env route
        = (env.routingAPIUnregisterResult route, [.routingAPIUnregister route])) ∧
    (route.type ≠ "tcp" →
      registerRoutes conf env route
        = (env.sendMessageResult "router.register" route,
           [.sendMessage "router.register" conf.host route conf.privateInstanceId]) ∧
      unregisterRoutes conf env route
        = (env.sendMessageResult "router.unregister" route,
           [.sendMessage "router.unregister" conf.host route conf.privateInstanceId])) := by
  constructor <;> intro h <;>
    exact ⟨by simp [registerRoutes, h], by simp [unregisterRoutes, h]⟩

/-- C5 witness: the dispatch instantiated at the TCP fixture route and the
HTTP fixture route. -/
theorem dispatch_by_route_type_witness :
    (registerRoutes exampleConf okRegEnv tcpRoute
        = (okRegEnv.routingAPIRegisterResult tcpRoute, [.routingAPIRegister tcpRoute]) ∧
     unregisterRoutes exampleConf okRegEnv tcpRoute
        = (okRegEnv.routingAPIUnregisterResult tcpRoute, [.routingAPIUnregister tcpRoute])) ∧
    (registerRoutes exampleConf okRegEnv httpRoute
        = (okRegEnv.sendMessageResult "router.register" httpRoute,
           [.sendMessage "router.register" exampleConf.host httpRoute exampleConf.privateInstanceId]) ∧
     unregisterRoutes exampleConf okRegEnv httpRoute
        = (okRegEnv.sendMessageResult "router.unregister" httpRoute,
           [.sendMessage "router.unregister" exampleConf.host httpRoute exampleConf.privateInstanceId])) :=
  ⟨(dispatch_by_route_type exampleConf okRegEnv tcpRoute).1 rfl,
   (dispatch_by_route_type exampleConf okRegEnv httpRoute).2 (by decide)⟩

/-- C1: the decision table of the coordinator's main loop: a no-check or
healthy event causes exactly one register action for that event's route and
no unregister action, and a check-error or unhealthy event causes exactly
one unregister action and no register action; each event causes exactly one
backend action in total. -/
theorem handleEvent_decision_table (conf : RegistrarConf) (env : RegistrarEnv) (route : Route) :
    ((handleEvent conf env route .noHealthCheck).2.countP (isRegisterActionFor route) = 1 ∧
     (handleEvent conf env route .noHealthCheck).2.countP (isUnregisterActionFor route) = 0 ∧
     (handleEvent conf env route .noHealthCheck).2.length = 1) ∧
    ((handleEvent conf env route .healthy).2.countP (isRegisterActionFor route) = 1 ∧
     (handleEvent conf env route .healthy).2.countP (isUnregisterActionFor route) = 0 ∧
     (handleEvent conf env route .healthy).2.length = 1) ∧
    ((handleEvent conf env route .checkError).2.countP (isUnregisterActionFor route) = 1 ∧
     (handleEvent conf env route .checkError).2.countP (isRegisterActionFor route) = 0 ∧
     (handleEvent conf env route .checkError).2.length = 1) ∧
    ((handleEvent conf env route .unhealthy).2.countP (isUnregisterActionFor route) = 1 ∧
     (handleEvent conf env route .unhealthy).2.countP (isRegisterActionFor route) = 0 ∧
     (handleEvent conf env route .unhealthy).2.length = 1) := by
  by_cases h : route.type = "tcp" <;>
    simp [handleEvent, registerRoutes, unregisterRoutes, isRegisterActionFor,
      isUnregisterActionFor, h, List.countP_cons, List.countP_nil]

/-- C7: per-route scheduler behavior: over any input sequence consisting of
ticks followed by the stop signal, the scheduler emits exactly one event per
tick and returns at the stop signal without emitting a final event; a tick
is classified as no-check when no health-check script is configured, and
otherwise as error, healthy or unhealthy according to the HealthChecker's
answer. -/
theorem scheduler_one_event_per_tick (route : Route)
    (ticks : List (Except String Bool)) (rest : List SchedInput) :
    schedulerRun route (ticks.map SchedInput.tick ++ SchedInput.close :: rest)
      = ticks.map (fun res => (schedulerTick route res).1) ∧
    (route.healthCheck = none →
      ∀ res, schedulerTick route res = (.noHealthCheckEvent, false)) ∧
    (∀ hc, route.healthCheck = some hc → hc.scriptPath ≠ "" →
      (∀ e, schedulerTick route (.error e) = (.errEvent, true)) ∧
      schedulerTick route (.ok true) = (.healthyEvent, true) ∧
      schedulerTick route (.ok false) = (.unhealthyEvent, true)) := by
  refine ⟨?_, ?_, ?_⟩
  · induction ticks with
    | nil => simp [schedulerRun]
    | cons t ts ih => simp [schedulerRun, ih]
  · intro h res
    simp [schedulerTick, h]
  · intro hc hhc hne
    refine ⟨fun e => ?_, ?_, ?_⟩ <;> simp [schedulerTick, hhc, hne]

/-- C7 witness: the scheduler run over two ticks, a close, and a trailing
tick for the HTTP fixture route, plus the classification at concrete
routes. -/
theorem scheduler_one_event_per_tick_witness :
    schedulerRun httpRoute
        [SchedInput.tick (.ok true), SchedInput.tick (.error "boom"),
         SchedInput.close, SchedInput.tick (.ok false)]
      = [.healthyEvent, .errEvent] ∧
    schedulerTick tcpRoute (.ok false) = (.noHealthCheckEvent, false) ∧
    schedulerTick httpRoute (.ok false) = (.unhealthyEvent, true) :=
  ⟨((scheduler_one_event_per_tick httpRoute [.ok true, .error "boom"]
      [SchedInput.tick (.ok false)]).1).trans (by decide),
   (scheduler_one_event_per_tick tcpRoute [] []).2.1 rfl (.ok false),
   ((scheduler_one_event_per_tick httpRoute [] []).2.2
      { scriptPath := "/bin/check", timeout := 1000000000 } rfl (by decide)).2.2⟩

/-- C10: a route whose health-check block is present but whose script path
is the empty string is treated exactly like a route with no health check:
every tick yields the no-check event, the HealthChecker is never invoked,
and both the tick classification and the whole scheduler run agree with the
same route with the health check removed. -/
theorem emptyScriptPath_like_noHealthCheck (route : Route) (hc : HealthCheck)
    (hhc : route.healthCheck = some hc) (hempty : hc.scriptPath = "") :
    (∀ res, schedulerTick route res = (.noHealthCheckEvent, false)) ∧
    (∀ res, schedulerTick route res
      = schedulerTick { route with healthCheck := none } res) ∧
    (∀ inputs, schedulerRun route inputs
      = schedulerRun { route with healthCheck := none } inputs) := by
  have h1 : ∀ res, schedulerTick route res = (.noHealthCheckEvent, false) := by
    intro res
    simp [schedulerTick, hhc, hempty]
  have h2 : ∀ res, schedulerTick route res
      = schedulerTick { route with healthCheck := none } res := by
    intro res
    rw [h1 res]
    simp [schedulerTick]
  refine ⟨h1, h2, ?_⟩
  intro inputs
  induction inputs with
  | nil => simp [schedulerRun]
  | cons i rest ih =>
    cases i with
    | tick res => simp [schedulerRun, ih, h2 res]
    | close => simp [schedulerRun]

/-- C10 witness: the empty-script-path fixture route classifies every tick
as no-check without invoking the checker. -/
theorem emptyScriptPath_like_noHealthCheck_witness :
    schedulerTick emptyCheckRoute (.ok false) = (.noHealthCheckEvent, false) :=
  (emptyScriptPath_like_noHealthCheck emptyCheckRoute emptyCheck rfl rfl).1 (.ok false)

/-- C8: fail-fast in the main loop: if a backend call made while handling a
health event returns an error, the loop returns exactly that error at once;
the trace contains only the actions of the failing event and none of the
remaining inputs are processed. -/
theorem runLoop_fail_fast (conf : RegistrarConf) (env : RegistrarEnv)
    (route : Route) (ev : HealthEvent) (e : String) (acts : List RegAction)
    (rest : List RunInput)
    (h : handleEvent conf env route ev = (some e, acts)) :
    runLoop conf env (.event route ev :: rest)
      = (some (some e), acts.map TraceItem.action) := by
  simp [runLoop, h]

/-- C8 witness: a failing message-bus publish on the HTTP fixture route
terminates the loop with that error before the pending TCP event is
processed. -/
theorem runLoop_fail_fast_witness :
    runLoop exampleConf natsFailEnv
        [.event httpRoute .healthy, .event tcpRoute .healthy]
      = (some (some "nats down"),
         [TraceItem.action
            (.sendMessage "router.register" "127.0.0.1" httpRoute "instance-1")]) :=
  runLoop_fail_fast exampleConf natsFailEnv httpRoute .healthy "nats down"
    [.sendMessage "router.register" "127.0.0.1" httpRoute "instance-1"]
    [.event tcpRoute .healthy] (by decide)

/-- C2: the shutdown protocol: on the signal the loop first stops every
per-route scheduler (one stop per configured route) and then runs the
unregister sweep over the routes in configuration order; if every
unregister call succeeds the sweep yields nil and performs each route's
unregister action in order, and if the first failing route is reached after
a fully successful prefix the sweep returns that error without attempting
the remaining routes. -/
theorem runLoop_shutdown (conf : RegistrarConf) (env : RegistrarEnv)
    (rest : List RunInput) :
    (runLoop conf env (.signal :: rest)
      = (some (unregisterAll conf env conf.routes).1,
         (List.range conf.routes.length).map TraceItem.stopScheduler
           ++ (unregisterAll conf env conf.routes).2.map TraceItem.action)) ∧
    (∀ rs : List Route, (∀ r ∈ rs, (unregisterRoutes conf env r).1 = none) →
      unregisterAll conf env rs = (none, unregisterActions conf env rs)) ∧
    (∀ pre (r : Route) post e acts,
      (∀ p ∈ pre, (unregisterRoutes conf env p).1 = none) →
      unregisterRoutes conf env r = (some e, acts) →
      unregisterAll conf env (pre ++ r :: post)
        = (some e, unregisterActions conf env pre ++ acts)) := by
  refine ⟨by simp [runLoop], ?_, ?_⟩
  · intro rs hok
    induction rs with
    | nil => simp [unregisterAll, unregisterActions]
    | cons r rs ih =>
      have hr := hok r (List.mem_cons_self r rs)
      rcases heq : unregisterRoutes conf env r with ⟨res, acts⟩
      rw [heq] at hr
      simp only at hr
      subst hr
      have ihr := ih (fun p hp => hok p (List.mem_cons_of_mem r hp))
      simp [unregisterAll, unregisterActions, heq, ihr]
  · intro pre r post e acts hpre hfail
    induction pre with
    | nil => simp [unregisterAll, unregisterActions, hfail]
    | cons p ps ih =>
      have hp := hpre p (List.mem_cons_self p ps)
      rcases heq : unregisterRoutes conf env p with ⟨res, pacts⟩
      rw [heq] at hp
      simp only at hp
      subst hp
      have ihr := ih (fun q hq => hpre q (List.mem_cons_of_mem p hq))
      simp [unregisterAll, unregisterActions, heq, ihr, List.append_assoc]

/-- C2 witness: the full-success sweep over the two fixture routes, the
fail-fast sweep in which the TCP route's unregistration fails after the
HTTP route succeeded, and the signal branch of the loop itself. -/
theorem runLoop_shutdown_witness :
    unregisterAll exampleConf okRegEnv [httpRoute, tcpRoute]
      = (none, unregisterActions exampleConf okRegEnv [httpRoute, tcpRoute]) ∧
    unregisterAll exampleConf failTcpEnv ([httpRoute] ++ tcpRoute :: [])
      = (some "api down",
         unregisterActions exampleConf failTcpEnv [httpRoute]
           ++ [.routingAPIUnregister tcpRoute]) ∧
    runLoop exampleConf failTcpEnv [.signal]
      = (some (unregisterAll exampleConf failTcpEnv exampleConf.routes).1,
         (List.range exampleConf.routes.length).map TraceItem.stopScheduler
           ++ (unregisterAll exampleConf failTcpEnv exampleConf.routes).2.map
               TraceItem.action) :=
  ⟨(runLoop_shutdown exampleConf okRegEnv []).2.1 [httpRoute, tcpRoute] (by decide),
   (runLoop_shutdown exampleConf failTcpEnv []).2.2 [httpRoute] tcpRoute [] "api down"
     [.routingAPIUnregister tcpRoute] (by decide) (by decide),
   (runLoop_shutdown exampleConf failTcpEnv []).1⟩

/-- C9: invariants of the router-group cache: every cached identifier is
non-empty and survives a call; a failed resolution (backend error, or a
resolution yielding the empty identifier) returns the error with the state
unchanged; and any call for an uncached name contacts the backend, so a
failed resolution is retried by the next call. -/
theorem routerGroupGUID_cache_invariant (env : CallEnv) (s : RoutingAPIState)
    (name : String) :
    ((∀ p ∈ s.routerGroupGUID, p.2 ≠ "") →
      ∀ p ∈ (getRouterGroupGUID env s name).state.routerGroupGUID, p.2 ≠ "") ∧
    (∀ e, lookupGUID name s.routerGroupGUID = none →
      env.routerGroupResult name = .error e →
      getRouterGroupGUID env s name = ⟨.error e, s, [.routerGroupWithName name]⟩) ∧
    (∀ rg, lookupGUID name s.routerGroupGUID = none →
      env.routerGroupResult name = .ok rg → rg.guid = "" →
      getRouterGroupGUID env s name
        = ⟨.error (routerGroupNotFoundMsg name), s, [.routerGroupWithName name]⟩) ∧
    (lookupGUID name s.routerGroupGUID = none →
      (getRouterGroupGUID env s name).calls = [.routerGroupWithName name]) := by
  refine ⟨?_, ?_, ?_, ?_⟩
  · intro hinv
    unfold getRouterGroupGUID
    rcases hl : lookupGUID name s.routerGroupGUID with _ | guid
    · rcases hr : env.routerGroupResult name with e | rg
      · simpa using hinv
      · by_cases hg : rg.guid = ""
        · simp only [hg, if_pos rfl]
          simpa using hinv
        · simp only [if_neg hg]
          intro p hp
          rcases List.mem_cons.mp hp with hp | hp
          · subst hp; exact hg
          · exact hinv p hp
    · simpa using hinv
  · intro e hl hr
    simp [getRouterGroupGUID, hl, hr]
  · intro rg hl hr hg
    simp [getRouterGroupGUID, hl, hr, hg]
  · intro hl
    unfold getRouterGroupGUID
    rw [hl]
    rcases hr : env.routerGroupResult name with e | rg
    · rfl
    · by_cases hg : rg.guid = "" <;> simp [hg]

/-- C9 witness: with the empty-cache start state, a backend error leaves the
state unchanged, and the empty-identifier resolution produces the not-found
error, likewise leaving the state unchanged; the non-emptiness invariant
holds of the resulting cache. -/
theorem routerGroupGUID_cache_invariant_witness :
    getRouterGroupGUID rgFailEnv emptyState "default-tcp"
      = ⟨.error "api down", emptyState, [.routerGroupWithName "default-tcp"]⟩ ∧
    getRouterGroupGUID notFoundEnv emptyState "default-tcp"
      = ⟨.error (routerGroupNotFoundMsg "default-tcp"), emptyState,
         [.routerGroupWithName "default-tcp"]⟩ ∧
    (∀ p ∈ (getRouterGroupGUID rgOkEnv emptyState "default-tcp").state.routerGroupGUID,
      p.2 ≠ "") :=
  ⟨(routerGroupGUID_cache_invariant rgFailEnv emptyState "default-tcp").2.1
     "api down" rfl rfl,
   (routerGroupGUID_cache_invariant notFoundEnv emptyState "default-tcp").2.2.1
     ⟨""⟩ rfl rfl rfl,
   (routerGroupGUID_cache_invariant rgOkEnv emptyState "default-tcp").1
     (by simp [emptyState])⟩

/-- Helper for C6: one getRouterGroupGUID call preserves any existing cache
entry and never makes a resolution call for a name that is already cached. -/
theorem getRouterGroupGUID_preserves (env : CallEnv) (s : RoutingAPIState)
    (name2 name g : String) (h : lookupGUID name s.routerGroupGUID = some g) :
    lookupGUID name (getRouterGroupGUID env s name2).state.routerGroupGUID = some g ∧
    (getRouterGroupGUID env s name2).calls.countP (isResolutionCallFor name) = 0 := by
  by_cases hn : name2 = name
  · subst hn
    simp [getRouterGroupGUID, h]
  · unfold getRouterGroupGUID
    rcases hl : lookupGUID name2 s.routerGroupGUID with _ | guid
    · rcases hr : env.routerGroupResult name2 with e | rg
      · simp [h, List.countP_cons, isResolutionCallFor, hn]
      · by_cases hg : rg.guid = ""
        · simp [hg, h, List.countP_cons, isResolutionCallFor, hn]
        · simp [hg, h, lookupGUID, hn, List.countP_cons, isResolutionCallFor]
    · simp [h]

/-- Helper for C6: RegisterRoute preserves any existing cache entry and
never resolves an already-cached name. -/
theorem RegisterRoute_preserves (env : CallEnv) (s : RoutingAPIState)
    (route : Route) (name g : String)
    (h : lookupGUID name s.routerGroupGUID = some g) :
    lookupGUID name (RegisterRoute env s route).state.routerGroupGUID = some g ∧
    (RegisterRoute env s route).calls.countP (isResolutionCallFor name) = 0 := by
  unfold RegisterRoute
  rcases ht : env.tokenResult with e | tok
  · simp [refreshToken, ht, h, List.countP_cons, isResolutionCallFor]
  · have h1 : lookupGUID name
        ({ s with clientToken := some tok } : RoutingAPIState).routerGroupGUID = some g := h
    have hg := getRouterGroupGUID_preserves env { s with clientToken := some tok }
      route.routerGroup name g h1
    rcases hm : getRouterGroupGUID env { s with clientToken := some tok }
        route.routerGroup with ⟨res, st, calls⟩
    rw [hm] at hg
    rcases res with e | guid
    · simp only [refreshToken, ht, makeTcpRouteMapping, hm]
      simpa [List.countP_append, List.countP_cons, isResolutionCallFor] using hg
    · rcases hu : env.upsertResult [NewSniTcpRouteMapping guid
        (route.externalPort % 65536) (nilIfEmpty (some route.serverCertDomainSAN))
        route.host (route.port % 65536)
        (calculateTTL route.registrationInterval
          ({ s with clientToken := some tok } : RoutingAPIState).routingAPIMaxTTL)]
        with _ | e <;>
      · simp only [refreshToken, ht, makeTcpRouteMapping, hm, hu]
        simpa [List.countP_append, List.countP_cons, isResolutionCallFor] using hg

/-- Helper for C6: UnregisterRoute preserves any existing cache entry and
never resolves an already-cached name. -/
theorem UnregisterRoute_preserves (env : CallEnv) (s : RoutingAPIState)
    (route : Route) (name g : String)
    (h : lookupGUID name s.routerGroupGUID = some g) :
    lookupGUID name (UnregisterRoute env s route).state.routerGroupGUID = some g ∧
    (UnregisterRoute env s route).calls.countP (isResolutionCallFor name) = 0 := by
  unfold UnregisterRoute
  rcases ht : env.tokenResult with e | tok
  · simp [refreshToken, ht, h, List.countP_cons, isResolutionCallFor]
  · have h1 : lookupGUID name
        ({ s with clientToken := some tok } : RoutingAPIState).routerGroupGUID = some g := h
    have hg := getRouterGroupGUID_preserves env { s with clientToken := some tok }
      route.routerGroup name g h1
    rcases hm : getRouterGroupGUID env { s with clientToken := some tok }
        route.routerGroup with ⟨res, st, calls⟩
    rw [hm] at hg
    rcases res with e | guid
    · simp only [refreshToken, ht, makeTcpRouteMapping, hm]
      simpa [List.countP_append, List.countP_cons, isResolutionCallFor] using hg
    · rcases hu : env.deleteResult [NewSniTcpRouteMapping guid
        (route.externalPort % 65536) (nilIfEmpty (some route.serverCertDomainSAN))
        route.host (route.port % 65536)
        (calculateTTL route.registrationInterval
          ({ s with clientToken := some tok } : RoutingAPIState).routingAPIMaxTTL)]
        with _ | e <;>
      · simp only [refreshToken, ht, makeTcpRouteMapping, hm, hu]
        simpa [List.countP_append, List.countP_cons, isResolutionCallFor] using hg

/-- C6 counterexample: two RegisterRoute calls for the same router-group
name can make two backend resolution calls: the first resolution fails, the
failure is not cached, and the second call resolves again, violating the
claimed at-most-one bound on resolution calls per distinct name. -/
theorem memoization_counterexample :
    ¬ ((runOps emptyState
          [.reg tcpRoute rgFailEnv, .reg tcpRoute rgOkEnv]).2.countP
        (isResolutionCallFor "default-tcp") ≤ 1) := by
  decide

/-- C6 (amended): memoization holds for successful resolutions: once a
router-group name is cached, any further sequence of RegisterRoute and
UnregisterRoute calls never contacts the backend to resolve that name and
the cached identifier is returned unchanged at the end of the run; failed
resolutions are not cached and may be retried. -/
theorem memoization_after_success (ops : List ApiOp) (s : RoutingAPIState)
    (name g : String) (h : lookupGUID name s.routerGroupGUID = some g) :
    lookupGUID name (runOps s ops).1.routerGroupGUID = some g ∧
    (runOps s ops).2.countP (isResolutionCallFor name) = 0 := by
  induction ops generalizing s with
  | nil => simpa [runOps] using h
  | cons op rest ih =>
    cases op with
    | reg route env =>
      have hp := RegisterRoute_preserves env s route name g h
      have ht := ih (RegisterRoute env s route).state hp.1
      simp [runOps, List.countP_append, hp.2, ht.1, ht.2]
    | unreg route env =>
      have hp := UnregisterRoute_preserves env s route name g h
      have ht := ih (UnregisterRoute env s route).state hp.1
      simp [runOps, List.countP_append, hp.2, ht.1, ht.2]

/-- C6 witness: starting from a state in which the default router group is
already cached, a register followed by an unregister for the TCP fixture
route makes no resolution call and leaves the cached identifier in place. -/
theorem memoization_after_success_witness :
    lookupGUID "default-tcp"
        (runOps cachedState
          [.reg tcpRoute rgOkEnv, .unreg tcpRoute rgOkEnv]).1.routerGroupGUID
      = some "guid-0" ∧
    (runOps cachedState
        [.reg tcpRoute rgOkEnv, .unreg tcpRoute rgOkEnv]).2.countP
      (isResolutionCallFor "default-tcp") = 0 :=
  memoization_after_success [.reg tcpRoute rgOkEnv, .unreg tcpRoute rgOkEnv]
    cachedState "default-tcp" "guid-0" rfl

/-- C4: the step structure of RegisterRoute and UnregisterRoute: the first
collaborator call is always the fresh token fetch; a token-fetch failure
returns that error having contacted nothing else; a failing router-group
resolution returns its error without any upsert or delete, and a resolution
yielding the empty identifier returns the router-group-not-found error; on
success exactly one upsert (register) or delete (unregister) is made,
carrying the single mapping built from the group identifier, the external
port, the SNI hint with the empty string normalized to absent, the internal
host, the internal port, and the computed TTL, and the upsert or delete
error, if any, is returned. -/
theorem registerUnregister_steps (env : CallEnv) (s : RoutingAPIState) (route : Route) :
    ((RegisterRoute env s route).calls.head? = some .fetchToken ∧
     (UnregisterRoute env s route).calls.head? = some .fetchToken) ∧
    (∀ e, env.tokenResult = .error e →
      RegisterRoute env s route = ⟨.error e, s, [.fetchToken]⟩ ∧
      UnregisterRoute env s route = ⟨.error e, s, [.fetchToken]⟩) ∧
    (∀ tok e, env.tokenResult = .ok tok →
      lookupGUID route.routerGroup s.routerGroupGUID = none →
      env.routerGroupResult route.routerGroup = .error e →
      RegisterRoute env s route
        = ⟨.error e, { s with clientToken := some tok },
           [.fetchToken, .setToken tok, .routerGroupWithName route.routerGroup]⟩ ∧
      UnregisterRoute env s route
        = ⟨.error e, { s with clientToken := some tok },
           [.fetchToken, .setToken tok, .routerGroupWithName route.routerGroup]⟩) ∧
    (∀ tok rg, env.tokenResult = .ok tok →
      lookupGUID route.routerGroup s.routerGroupGUID = none →
      env.routerGroupResult route.routerGroup = .ok rg → rg.guid = "" →
      RegisterRoute env s route
        = ⟨.error (routerGroupNotFoundMsg route.routerGroup),
           { s with clientToken := some tok },
           [.fetchToken, .setToken tok, .routerGroupWithName route.routerGroup]⟩ ∧
      UnregisterRoute env s route
        = ⟨.error (routerGroupNotFoundMsg route.routerGroup),
           { s with clientToken := some tok },
           [.fetchToken, .setToken tok, .routerGroupWithName route.routerGroup]⟩) ∧
    (∀ tok rg m, env.tokenResult = .ok tok →
      lookupGUID route.routerGroup s.routerGroupGUID = none →
      env.routerGroupResult route.routerGroup = .ok rg → rg.guid ≠ "" →
      m = NewSniTcpRouteMapping rg.guid (route.externalPort % 65536)
            (nilIfEmpty (some route.serverCertDomainSAN)) route.host
            (route.port % 65536)
            (calculateTTL route.registrationInterval s.routingAPIMaxTTL) →
      ((RegisterRoute env s route).calls
          = [.fetchToken, .setToken tok, .routerGroupWithName route.routerGroup,
             .upsertTcpRouteMappings [m]] ∧
       (RegisterRoute env s route).state
          = { s with clientToken := some tok,
                     routerGroupGUID := (route.routerGroup, rg.guid) :: s.routerGroupGUID } ∧
       (env.upsertResult [m] = none → (RegisterRoute env s route).result = .ok ()) ∧
       (∀ e, env.upsertResult [m] = some e →
         (RegisterRoute env s route).result = .error e) ∧
       (UnregisterRoute env s route).calls
          = [.fetchToken, .setToken tok, .routerGroupWithName route.routerGroup,
             .deleteTcpRouteMappings [m]] ∧
       (UnregisterRoute env s route).state
          = { s with clientToken := some tok,
                     routerGroupGUID := (route.routerGroup, rg.guid) :: s.routerGroupGUID } ∧
       (env.deleteResult [m] = none → (UnregisterRoute env s route).result = .ok ()) ∧
       (∀ e, env.deleteResult [m] = some e →
         (UnregisterRoute env s route).result = .error e))) ∧
    (∀ tok guid m, env.tokenResult = .ok tok →
      lookupGUID route.routerGroup s.routerGroupGUID = some guid →
      m = NewSniTcpRouteMapping guid (route.externalPort % 65536)
            (nilIfEmpty (some route.serverCertDomainSAN)) route.host
            (route.port % 65536)
            (calculateTTL route.registrationInterval s.routingAPIMaxTTL) →
      ((RegisterRoute env s route).calls
          = [.fetchToken, .setToken tok, .upsertTcpRouteMappings [m]] ∧
       (RegisterRoute env s route).state = { s with clientToken := some tok } ∧
       (UnregisterRoute env s route).calls
          = [.fetchToken, .setToken tok, .deleteTcpRouteMappings [m]] ∧
       (UnregisterRoute env s route).state = { s with clientToken := some tok })) := by
  refine ⟨⟨?_, ?_⟩, ?_, ?_, ?_, ?_, ?_⟩
  · unfold RegisterRoute
    rcases ht : env.tokenResult with e | tok
    · simp [refreshToken, ht]
    · rcases hm : makeTcpRouteMapping env { s with clientToken := some tok } route
        with ⟨res, st, c⟩
      rcases res with e | m
      · simp [refreshToken, ht, hm]
      · rcases hu : env.upsertResult [m] with _ | e <;> simp [refreshToken, ht, hm, hu]
  · unfold UnregisterRoute
    rcases ht : env.tokenResult with e | tok
    · simp [refreshToken, ht]
    · rcases hm : makeTcpRouteMapping env { s with clientToken := some tok } route
        with ⟨res, st, c⟩
      rcases res with e | m
      · simp [refreshToken, ht, hm]
      · rcases hd : env.deleteResult [m] with _ | e <;> simp [refreshToken, ht, hm, hd]
  · intro e ht
    exact ⟨by simp [RegisterRoute, refreshToken, ht],
           by simp [UnregisterRoute, refreshToken, ht]⟩
  · intro tok e ht hl hr
    exact ⟨by simp [RegisterRoute, refreshToken, ht, makeTcpRouteMapping,
             getRouterGroupGUID, hl, hr],
           by simp [UnregisterRoute, refreshToken, ht, makeTcpRouteMapping,
             getRouterGroupGUID, hl, hr]⟩
  · intro tok rg ht hl hr hg
    exact ⟨by simp [RegisterRoute, refreshToken, ht, makeTcpRouteMapping,
             getRouterGroupGUID, hl, hr, hg],
           by simp [UnregisterRoute, refreshToken, ht, makeTcpRouteMapping,
             getRouterGroupGUID, hl, hr, hg]⟩
  · intro tok rg m ht hl hr hg hm
    subst hm
    rcases hu : env.upsertResult [NewSniTcpRouteMapping rg.guid
        (route.externalPort % 65536) (nilIfEmpty (some route.serverCertDomainSAN))
        route.host (route.port % 65536)
        (calculateTTL route.registrationInterval s.routingAPIMaxTTL)] with _ | e1 <;>
    rcases hd : env.deleteResult [NewSniTcpRouteMapping rg.guid
        (route.externalPort % 65536) (nilIfEmpty (some route.serverCertDomainSAN))
        route.host (route.port % 65536)
        (calculateTTL route.registrationInterval s.routingAPIMaxTTL)] with _ | e2 <;>
    refine ⟨?_, ?_, ?_, ?_, ?_, ?_, ?_, ?_⟩ <;>
    simp [RegisterRoute, UnregisterRoute, refreshToken, ht, makeTcpRouteMapping,
      getRouterGroupGUID, hl, hr, hg, hu, hd]
  · intro tok guid m ht hl hm
    subst hm
    rcases hu : env.upsertResult [NewSniTcpRouteMapping guid
        (route.externalPort % 65536) (nilIfEmpty (some route.serverCertDomainSAN))
        route.host (route.port % 65536)
        (calculateTTL route.registrationInterval s.routingAPIMaxTTL)] with _ | e1 <;>
    rcases hd : env.deleteResult [NewSniTcpRouteMapping guid
        (route.externalPort % 65536) (nilIfEmpty (some route.serverCertDomainSAN))
        route.host (route.port % 65536)
        (calculateTTL route.registrationInterval s.routingAPIMaxTTL)] with _ | e2 <;>
    refine ⟨?_, ?_, ?_, ?_⟩ <;>
    simp [RegisterRoute, UnregisterRoute, refreshToken, ht, makeTcpRouteMapping,
      getRouterGroupGUID, hl, hu, hd]

/-- C4 witness: the step structure instantiated at the TCP fixture route
with the empty-cache start state: a token failure, a resolution failure, an
empty-identifier resolution, and a fully successful register and unregister
with the concrete mapping (group guid-1, external port 5678, absent SNI
hint, host 10.0.0.1, port 1234, TTL 21s). -/
theorem registerUnregister_steps_witness :
    RegisterRoute tokFailEnv emptyState tcpRoute
      = ⟨.error "uaa down", emptyState, [.fetchToken]⟩ ∧
    RegisterRoute rgFailEnv emptyState tcpRoute
      = ⟨.error "api down", { emptyState with clientToken := some "tok1" },
         [.fetchToken, .setToken "tok1", .routerGroupWithName tcpRoute.routerGroup]⟩ ∧
    UnregisterRoute notFoundEnv emptyState tcpRoute
      = ⟨.error (routerGroupNotFoundMsg tcpRoute.routerGroup),
         { emptyState with clientToken := some "tok3" },
         [.fetchToken, .setToken "tok3", .routerGroupWithName tcpRoute.routerGroup]⟩ ∧
    (RegisterRoute rgOkEnv emptyState tcpRoute).calls
      = [.fetchToken, .setToken "tok2", .routerGroupWithName tcpRoute.routerGroup,
         .upsertTcpRouteMappings
           [NewSniTcpRouteMapping "guid-1" 5678 none "10.0.0.1" 1234 21]] ∧
    (RegisterRoute rgOkEnv emptyState tcpRoute).result = .ok () ∧
    (UnregisterRoute rgOkEnv emptyState tcpRoute).calls
      = [.fetchToken, .setToken "tok2", .routerGroupWithName tcpRoute.routerGroup,
         .deleteTcpRouteMappings
           [NewSniTcpRouteMapping "guid-1" 5678 none "10.0.0.1" 1234 21]] := by
  have h5 := (registerUnregister_steps rgOkEnv emptyState tcpRoute).2.2.2.2.1 "tok2"
    ⟨"guid-1"⟩ (NewSniTcpRouteMapping "guid-1" 5678 none "10.0.0.1" 1234 21)
    rfl rfl rfl (by decide) (by decide)
  exact ⟨((registerUnregister_steps tokFailEnv emptyState tcpRoute).2.1 "uaa down" rfl).1,
    ((registerUnregister_steps rgFailEnv emptyState tcpRoute).2.2.1
      "tok1" "api down" rfl rfl rfl).1,
    ((registerUnregister_steps notFoundEnv emptyState tcpRoute).2.2.2.1
      "tok3" ⟨""⟩ rfl rfl rfl rfl).2,
    h5.1, h5.2.2.1 rfl, h5.2.2.2.2.1⟩

end RouteRegistrar
